import Mathlib

/-!
Verification of the nanorange constraint/range library (nanorange.hpp).

The library is a compile-time construct: its "data model" is a model of C++
types and type-level facts.  We embed it shallowly as a closed universe `Ty`
of C++ types together with Boolean concept predicates over `Ty` that mirror,
formula by formula, the definitions of the source header.  The leaves of the
concept formulas are probes of C++ core-language facts (well-formedness of
expressions such as `++i`, `*i`, `t.begin()`, standard type traits such as
`std::is_object`); those leaves are defined by recursion on `Ty`, following
the C++ core-language rules for the types in the universe.

Runtime behaviour of the thin algorithm layer (pointers into arrays,
`is_permutation`, `nth_element`) is modelled separately with lists and
index-based iterators.
-/

namespace nanorange

/-- The closed universe of C++ types used by the embedding.

`int`, `long`, `bool`, `void` are the built-in types (`long` doubles as
`std::ptrdiff_t`).  `lessFn` is `std::less<>`.  The `tag*` constructors are
the `std::*_iterator_tag` category classes.  `ptr`, `lref`, `rref`, `constQ`
and `array` are the compound types `T*`, `T&`, `T&&`, `const T`, `T[N]`.

`absent` is not a C++ type: it marks an undeclared member/typedef slot in
the class-type constructors below (the embedding's counterpart of "this
declaration does not exist", turned into `Option Ty` by `optOf`).

`rng id mb fb me fe` is a class type declaring (when the field is not
`absent`) a member `begin()`/`end()` and an ADL-findable free
`begin(T&)`/`end(T&)` with the given result types.

`iterCls id deref memVal memDiff incOk postIncRv hasTraits cat regOps eqCmp`
is a class type with (unless `absent`) an `operator*` of result type
`deref`, nested `value_type` / `difference_type` typedefs, pre/post
increment operators (`incOk` records that `++i` yields `I&` and `i++` is
well-formed, `postIncRv` that `i++` yields exactly `I`), the five nested
typedefs that `std::iterator_traits` needs (`hasTraits`, with category
`cat`), the usual default/copy/move construct/assign/destroy member set
(`regOps`) and an `operator==`/`operator!=` pair (`eqCmp`).

`nonesuchTy` is the library's `detail::nonesuch` placeholder: a class whose
constructors, destructor and assignment are all deleted. `danglingTy t` is
the library's `dangling<T>` wrapper type. -/
inductive Ty where
  | void
  | bool
  | int
  | long
  | lessFn
  | tagIn
  | tagOut
  | tagFwd
  | tagBidir
  | tagRA
  | ptr (pointee : Ty)
  | lref (t : Ty)
  | rref (t : Ty)
  | constQ (t : Ty)
  | array (elem : Ty) (n : Nat)
  | absent
  | rng (id : Nat) (memberBegin freeBegin memberEnd freeEnd : Ty)
  | iterCls (id : Nat) (deref memVal memDiff : Ty)
      (incOk postIncRv hasTraits : Bool) (cat : Ty)
      (regOps eqCmp : Bool)
  | nonesuchTy
  | danglingTy (t : Ty)
  deriving DecidableEq, Repr

namespace Ty

/-- Turn an `absent`-marked declaration slot into an `Option`. -/
def optOf (t : Ty) : Option Ty :=
  if t = .absent then none else some t

/-- `std::is_object`: everything except `void`, references and functions
(the universe has no function types; `absent` is treated as no type). -/
def isObject : Ty → Bool
  | .void => false
  | .lref _ => false
  | .rref _ => false
  | .absent => false
  | .constQ t => isObject t
  | _ => true

/-- `std::is_array`. -/
def isArrayTy : Ty → Bool
  | .array _ _ => true
  | _ => false

/-- `std::is_pointer`. -/
def isPointer : Ty → Bool
  | .ptr _ => true
  | _ => false

/-- `std::is_lvalue_reference`. -/
def isLvalueRef : Ty → Bool
  | .lref _ => true
  | _ => false

/-- `std::remove_cv`. -/
def removeCv : Ty → Ty
  | .constQ t => removeCv t
  | t => t

/-- `std::remove_reference`. -/
def removeRef : Ty → Ty
  | .lref t => t
  | .rref t => t
  | t => t

/-- Strip reference then cv, as in binding/initialization checks. -/
def strip (t : Ty) : Ty := removeCv (removeRef t)

/-- `std::decay`: drop reference, then array-to-pointer decay, else drop cv. -/
def decay (t : Ty) : Ty :=
  match removeRef t with
  | .array e _ => .ptr e
  | u => removeCv u

/-- Arithmetic (integral) types of the universe. -/
def isArith : Ty → Bool
  | .bool => true
  | .int => true
  | .long => true
  | _ => false

/-- `std::is_integral`. -/
def isIntegral : Ty → Bool
  | .bool => true
  | .int => true
  | .long => true
  | _ => false

/-- `std::is_signed` (on the integral types of the universe). -/
def isSigned : Ty → Bool
  | .int => true
  | .long => true
  | _ => false

/-- The class types of the universe (relevant to `std::is_base_of`). -/
def isClassTy : Ty → Bool
  | .lessFn => true
  | .tagIn => true
  | .tagOut => true
  | .tagFwd => true
  | .tagBidir => true
  | .tagRA => true
  | .rng _ _ _ _ _ => true
  | .iterCls _ _ _ _ _ _ _ _ _ _ => true
  | .nonesuchTy => true
  | .danglingTy _ => true
  | _ => false

/-- Rank of an input-chain iterator-category tag, used for
`std::is_base_of` between the standard tag classes. -/
def tagRank : Ty → Option Nat
  | .tagIn => some 1
  | .tagFwd => some 2
  | .tagBidir => some 3
  | .tagRA => some 4
  | _ => none

/-- `std::is_base_of<U, T>`-style derivation check for the universe:
the input-chain category tags derive from all lower ones, and every class
type is a (trivial) base of itself.  Scalar types are never base classes. -/
def derivesFrom (t u : Ty) : Bool :=
  match tagRank t, tagRank u with
  | some a, some b => b ≤ a
  | _, _ => isClassTy t && t == u

/-- `std::is_convertible<From, To>` for the universe: identity, arithmetic
conversions, derived-to-base on the category tags, and binding through
references of the same underlying type. -/
def convertibleStd (f t : Ty) : Bool :=
  (f == t) ||
  (isArith (strip f) && isArith (strip t)) ||
  derivesFrom (strip f) (strip t) ||
  (strip f == strip t)

/-- `std::is_nothrow_destructible`.  `nonesuch` has a deleted destructor. -/
def destructibleStd : Ty → Bool
  | .void => false
  | .absent => false
  | .nonesuchTy => false
  | .array e _ => destructibleStd e
  | .constQ t => destructibleStd t
  | .danglingTy t => destructibleStd t
  | _ => true

/-- `std::is_constructible<T>` (default construction). -/
def defaultCtorOk : Ty → Bool
  | .void => false
  | .absent => false
  | .lref _ => false
  | .rref _ => false
  | .array _ _ => false
  | .nonesuchTy => false
  | .constQ t => defaultCtorOk t
  | .danglingTy t => defaultCtorOk t
  | .iterCls _ _ _ _ _ _ _ _ regOps _ => regOps
  | _ => true

/-- Can `t` be direct-initialized from a single argument of type `u`
(`std::is_constructible<T, U>`)?  Scalars admit the arithmetic
conversions; class types admit their copy/move constructors. -/
def ctorFrom (t u : Ty) : Bool :=
  match t with
  | .lref x => strip u == removeCv x
  | .rref x => strip u == removeCv x
  | .constQ x => ctorFrom x u
  | .array _ _ => false
  | .void => false
  | .absent => false
  | .nonesuchTy => false
  | .iterCls i a b c d e f g regOps h =>
      regOps && (strip u == .iterCls i a b c d e f g regOps h)
  | .rng i a b c d => strip u == .rng i a b c d
  | .danglingTy x =>
      -- dangling(T t) and the implicit copy/move constructors
      (strip u == .danglingTy x) || (strip u == removeCv x)
  | x =>
      -- scalar targets: arithmetic inter-conversion, or the same type
      (isArith x && isArith (strip u)) || (strip u == x)

/-- `std::is_assignable<T, U>`.  Only lvalue-reference targets of
non-const type are assignable in the universe (rvalue class assignment
is never needed by the concepts below). -/
def assignStd (t u : Ty) : Bool :=
  match t with
  | .lref x =>
    match x with
    | .constQ _ => false
    | .iterCls i a b c d e f g regOps h =>
        regOps && (strip u == .iterCls i a b c d e f g regOps h)
    | .rng i a b c d => strip u == .rng i a b c d
    | .danglingTy y =>
        (strip u == .danglingTy y) || (strip u == removeCv y)
    | .ptr p => strip u == .ptr p
    | x' => isArith x' && isArith (strip u)
  | _ => false

/-- Probe for the `adl_swap` detection behind `Swappable` (source lines
28-41, 160-166): with `using std::swap` in scope, `swap(t, t)` is
well-formed exactly when `std::swap`'s constraints hold, i.e. the type is
move-constructible and move-assignable; `std::swap` for arrays recurses on
the element type. -/
def swapProbe : Ty → Bool
  | .array e _ => swapProbe e
  | t => ctorFrom t t && assignStd (.lref t) t

/-- Probe for the `Boolean_` requires clause (source lines 203-223): for
the arithmetic types every listed expression (`!b`, `b && a`, `b || a`,
`==`/`!=` against `bool`) is well-formed with the required result types.
No other universe type supports them. -/
def booleanProbe (t : Ty) : Bool := isArith (strip t)

/-- Probe for the `WeaklyEqualityComparableWith_` requires clause (source
lines 243-252): `t == u`, `t != u` (both directions) well-formed with
`Boolean` results.  Arithmetic pairs compare; equal object-pointer types
compare; `iterCls` compares with itself when it declares `==`/`!=`. -/
def eqWithProbe (s i : Ty) : Bool :=
  (isArith (strip s) && isArith (strip i)) ||
  (match strip s, strip i with
   | .ptr p, .ptr q => (p == q) && isObject p
   | .iterCls a b c d e f g h k l, .iterCls a' b' c' d' e' f' g' h' k' l' =>
       l && (Ty.iterCls a b c d e f g h k l == .iterCls a' b' c' d' e' f' g' h' k' l')
   | _, _ => false)

/-- Probe for the `StrictTotallyOrdered_` requires clause (source lines
272-281): `<`, `>`, `<=`, `>=` with `Boolean` results. -/
def ltProbe : Ty → Bool
  | .bool => true
  | .int => true
  | .long => true
  | .ptr p => isObject p
  | _ => false

/-- Probe for `same_lv<I>(++i)` and for the well-formedness of `i++` used
by the `WeaklyIncrementable_` requires clause (source lines 493-501).
`++` on `bool` was removed in C++17. -/
def incProbe : Ty → Bool
  | .int => true
  | .long => true
  | .ptr p => isObject p
  | .iterCls _ _ _ _ incOk _ _ _ _ _ => incOk
  | _ => false

/-- Probe for `same_rv<I>(i++)` in the `Incrementable_` requires clause
(source lines 513-518). -/
def postIncRvProbe : Ty → Bool
  | .int => true
  | .long => true
  | .ptr p => isObject p
  | .iterCls _ _ _ _ _ postIncRv _ _ _ _ => postIncRv
  | _ => false

/-- Probe for the `BidirectionalIterator_` requires clause (source lines
619-625): `same_lv<I>(--i)` and `same_rv<I>(i--)`. -/
def decProbe : Ty → Bool
  | .int => true
  | .long => true
  | .ptr p => isObject p
  | _ => false

/-- Probe for the `RandomAccessIterator_` requires clause (source lines
638-649): `+=`, `+`, `-=`, `-`, and `j[n]` with subscript result exactly
`reference_t<I>`.  Only object pointers support all of these. -/
def raProbe : Ty → Bool
  | .ptr p => isObject p
  | _ => false

/-- Probe for the `SizedSentinel_` requires clause (source lines 570-576):
`s - i` and `i - s` yielding exactly `difference_type_t<I>`. -/
def minusProbe (s i : Ty) : Bool :=
  (s == i) &&
  (match i with
   | .ptr p => isObject p
   | .int => true
   | .long => true
   | .bool => true
   | _ => false)

end Ty

/- ---------------------------------------------------------------------
   Core language concepts [7.3] (source lines 113-188)
   --------------------------------------------------------------------- -/

/-- `Same<T, U>` = `std::is_same` (source line 113-114). -/
def Same (t u : Ty) : Bool := t == u

/-- `DerivedFrom<T, U>` (source lines 131-134): `is_base_of<U, T>` plus
pointer convertibility (which, in this universe, adds nothing beyond
public unambiguous derivation as captured by `derivesFrom`). -/
def DerivedFrom (t u : Ty) : Bool := Ty.derivesFrom t u

/-- `ConvertibleTo<From, To>` = `std::is_convertible` (source line 136-137). -/
def ConvertibleTo (f t : Ty) : Bool := Ty.convertibleStd f t

/-- `Integral<I>` (source lines 148-149). -/
def Integral (t : Ty) : Bool := Ty.isIntegral t

/-- `SignedIntegral<I>` (source lines 151-152). -/
def SignedIntegral (t : Ty) : Bool := Integral t && Ty.isSigned t

/-- `Assignable<T, U>` = `std::is_assignable` (source lines 157-158). -/
def Assignable (t u : Ty) : Bool := Ty.assignStd t u

/-- `Swappable<T>` (source lines 160-161): detection of `adl_swap(t, t)`. -/
def Swappable (t : Ty) : Bool := Ty.swapProbe t

/-- `Destructible<T>` = `std::is_nothrow_destructible` (source lines
168-169). -/
def Destructible (t : Ty) : Bool := Ty.destructibleStd t

/-- `Constructible<T>` for zero arguments (source lines 171-173). -/
def Constructible0 (t : Ty) : Bool := Destructible t && Ty.defaultCtorOk t

/-- `Constructible<T, U>` for one argument (source lines 171-173). -/
def Constructible1 (t u : Ty) : Bool := Destructible t && Ty.ctorFrom t u

/-- `DefaultConstructible<T>` (source lines 175-176). -/
def DefaultConstructible (t : Ty) : Bool := Constructible0 t

/-- `MoveConstructible<T>` (source lines 178-181). -/
def MoveConstructible (t : Ty) : Bool :=
  Constructible1 t t && ConvertibleTo t t

/-- `CopyConstructible<T>` (source lines 183-188). -/
def CopyConstructible (t : Ty) : Bool :=
  MoveConstructible t &&
  Constructible1 t (.lref t) && ConvertibleTo (.lref t) t &&
  Constructible1 t (.lref (.constQ t)) && ConvertibleTo (.lref (.constQ t)) t &&
  Constructible1 t (.constQ t) && ConvertibleTo (.constQ t) t

/-- `Movable<T>` (source lines 193-198). -/
def Movable (t : Ty) : Bool :=
  Ty.isObject t && MoveConstructible t &&
  Assignable (.lref t) t && Swappable t

/-- `Boolean<B>` (source lines 227-231). -/
def BooleanC (t : Ty) : Bool :=
  Movable (Ty.decay t) && ConvertibleTo t .bool && Ty.booleanProbe t

/-- `WeaklyEqualityComparableWith<T, U>` (source lines 257-259). -/
def WeaklyEqualityComparableWith (t u : Ty) : Bool := Ty.eqWithProbe t u

/-- `EqualityComparable<T>` (source lines 261-262). -/
def EqualityComparable (t : Ty) : Bool := WeaklyEqualityComparableWith t t

/-- `StrictTotallyOrdered<T>` (source lines 285-288). -/
def StrictTotallyOrdered (t : Ty) : Bool :=
  EqualityComparable t && Ty.ltProbe t

/-- `Copyable<T>` (source lines 319-323). -/
def Copyable (t : Ty) : Bool :=
  CopyConstructible t && Movable t && Assignable (.lref t) (.lref (.constQ t))

/-- `Semiregular<T>` (source lines 325-328). -/
def Semiregular (t : Ty) : Bool := Copyable t && DefaultConstructible t

/-- `Regular<T>` (source lines 330-333). -/
def Regular (t : Ty) : Bool := Semiregular t && EqualityComparable t

/- ---------------------------------------------------------------------
   Callable concepts [7.6] (source lines 337-379)
   --------------------------------------------------------------------- -/

/-- Result type of invoking a callable of the universe (`std::result_of`
behind `is_callable`, source lines 339-345).  `std::less<>::operator()`
applies `<` to its two forwarded arguments and returns `bool`; it is
well-formed exactly when the arguments are `<`-comparable. -/
def callResult (f : Ty) (args : List Ty) : Option Ty :=
  match f, args with
  | .lessFn, [a, b] =>
    if (Ty.isArith (Ty.strip a) && Ty.isArith (Ty.strip b)) ||
       (Ty.strip a == Ty.strip b && Ty.isPointer (Ty.strip a)) then
      some .bool
    else none
  | _, _ => none

/-- `Callable<F, Args...>` (source lines 349-350). -/
def Callable (f : Ty) (args : List Ty) : Bool := (callResult f args).isSome

/-- `RegularCallable<F, Args...>` (source lines 352-353). -/
def RegularCallable (f : Ty) (args : List Ty) : Bool := Callable f args

/-- `Predicate<F, Args...>` (source lines 357-369): callable with a
`Boolean` result. -/
def PredicateC (f : Ty) (args : List Ty) : Bool :=
  Callable f args && BooleanC ((callResult f args).getD .void)

/-- `Relation<R, T, U>` (source lines 371-376). -/
def Relation (f t u : Ty) : Bool :=
  PredicateC f [t, t] && PredicateC f [u, u] &&
  PredicateC f [t, u] && PredicateC f [u, t]

/-- `StrictWeakOrder<R, T, U>` (source lines 378-379). -/
def StrictWeakOrder (f t u : Ty) : Bool := Relation f t u

/- ---------------------------------------------------------------------
   Iterator type aliases [9.1] (source lines 383-466)
   --------------------------------------------------------------------- -/

/-- Decayed-type routing of the `difference_type` specializations for
arrays and `const`-qualified types (source line 398 routes `const I` to
`difference_type<decay_t<I>>`). -/
def difference_type_core : Ty → Option Ty
  | .ptr p => if Ty.isObject p then some .long else none
  | .iterCls _ _ _ memDiff _ _ _ _ _ _ => Ty.optOf memDiff
  | .int => some .int
  | .long => some .long
  | .bool => some .int
  | .array e _ => if Ty.isObject e then some .long else none
  | _ => none

/-- `difference_type` / `difference_type_t` (source lines 390-420):
pointers to objects get `std::ptrdiff_t` (modelled by `long`); a nested
`difference_type` member is used next; otherwise, if subtraction of two
`const T&` yields an integral type, its signed form is used (this is how
the arithmetic types and arrays obtain a difference type); `const I`
routes to `difference_type<decay_t<I>>`.  `none` models an ill-formed
alias. -/
def difference_type_c (t : Ty) : Option Ty :=
  match t with
  | .constQ u => difference_type_core (Ty.decay u)
  | u => difference_type_core u

/-- Array/const routing of the `value_type` specializations (source lines
429-434: `value_type<T[N]>` and `value_type<const I>` defer to
`value_type<decay_t<.>>`). -/
def value_decay : Ty → Ty
  | .array e _ => .ptr e
  | .constQ (.array e _) => .ptr e
  | .constQ u => u
  | t => t

/-- `value_type` / `value_type_t` (source lines 422-456): for `T*` with
`T` an object type, `remove_cv_t<T>`; a nested `value_type` member is
used for class types when it names an object type; no universe type
declares a smart-pointer style `element_type`.  `none` models an
ill-formed alias. -/
def value_type_c (t : Ty) : Option Ty :=
  match value_decay t with
  | .ptr p => if Ty.isObject p then some (Ty.removeCv p) else none
  | .iterCls _ _ memVal _ _ _ _ _ _ _ =>
    match Ty.optOf memVal with
    | some v => if Ty.isObject v then some v else none
    | none => none
  | _ => none

/-- `iterator_category_t` = `std::iterator_traits<T>::iterator_category`
(source lines 459-460): object pointers are random access; class types
expose their nested category when they have the full legacy typedef set. -/
def iterator_category_c : Ty → Option Ty
  | .ptr p => if Ty.isObject p then some .tagRA else none
  | .iterCls _ _ _ _ _ _ hasTraits cat _ _ =>
      if hasTraits then Ty.optOf cat else none
  | _ => none

/-- Detection of `detail::legacy_iterator_traits` (source lines 531-538):
all five nested typedefs of `std::iterator_traits<T>` must exist. -/
def legacyTraitsOk : Ty → Bool
  | .ptr p => Ty.isObject p
  | .iterCls _ _ _ _ _ _ hasTraits _ _ _ => hasTraits
  | _ => false

/-- `reference_t<T>` = `decltype(*declval<T&>())` (source lines 462-463).
Dereferencing an object pointer or an array lvalue yields an lvalue of
the element; `iterCls` yields its declared `operator*` result. -/
def reference_type : Ty → Option Ty
  | .ptr p => if Ty.isObject p then some (.lref p) else none
  | .array e _ => some (.lref e)
  | .iterCls _ deref _ _ _ _ _ _ _ _ => Ty.optOf deref
  | .constQ (.ptr p) => if Ty.isObject p then some (.lref p) else none
  | .constQ (.array e _) => some (.lref e)
  | _ => none

/-- `rvalue_reference_t<T>` = `decltype(iter_move(declval<T&>()))` with
`iter_move(e) = std::move(*e)` (source lines 384-388, 465-466): an
rvalue reference to the dereferenced type, well-formed exactly when
`*e` is. -/
def rvalue_reference_type (t : Ty) : Option Ty :=
  (reference_type t).map (fun r => .rref (Ty.strip r))

/- ---------------------------------------------------------------------
   Iterator concepts (source lines 468-659)
   --------------------------------------------------------------------- -/

/-- `Readable<In>` (source lines 468-472): the three aliases
`value_type_t`, `reference_t`, `rvalue_reference_t` are all detected. -/
def Readable (i : Ty) : Bool :=
  (value_type_c i).isSome && (reference_type i).isSome &&
  (rvalue_reference_type i).isSome

/-- `Writable<Out, T>` (source lines 477-489): `*o = forward<T>(t)` plus
the two `const_cast<const reference_t<Out>&&>` assignment forms.  For the
universe's writable outputs `reference_t<Out>` is an lvalue reference, so
(cv-qualifiers on a reference type being ignored) all three forms collapse
to assignability through that reference. -/
def Writable (out t : Ty) : Bool :=
  match reference_type out with
  | some (.lref p) =>
    match p with
    | .constQ _ => false
    | _ => Assignable (.lref p) t
  | _ => false

/-- The `WeaklyIncrementable_` requires clause (source lines 493-501):
`difference_type_t<I>` exists and is a signed integral, `++i` yields
`I&`, and `i++` is well-formed. -/
def wiProbe (i : Ty) : Bool :=
  (difference_type_c i).isSome &&
  SignedIntegral ((difference_type_c i).getD .nonesuchTy) &&
  Ty.incProbe i

/-- `WeaklyIncrementable<I>` (source lines 505-508). -/
def WeaklyIncrementable (i : Ty) : Bool :=
  Semiregular i && wiProbe i

/-- `Incrementable<I>` (source lines 522-526). -/
def Incrementable (i : Ty) : Bool :=
  Regular i && WeaklyIncrementable i && Ty.postIncRvProbe i

/-- The `Iterator_` requires clause (source lines 543-548):
`not_void(*i)`. -/
def derefNotVoid (i : Ty) : Bool :=
  match reference_type i with
  | some v => !(v == .void)
  | none => false

/-- `Iterator<I>` (source lines 552-556). -/
def Iterator (i : Ty) : Bool :=
  derefNotVoid i && WeaklyIncrementable i && legacyTraitsOk i

/-- `Sentinel<S, I>` (source lines 558-563).  Note the library requires
`Same<S, I>`: a sentinel must have exactly the iterator's type. -/
def Sentinel (s i : Ty) : Bool :=
  Semiregular s && Iterator i && WeaklyEqualityComparableWith s i && Same s i

/-- `disable_sized_sentinel` (source lines 565-566): never specialized. -/
def disable_sized_sentinel (_ _ : Ty) : Bool := false

/-- `SizedSentinel<S, I>` (source lines 580-584). -/
def SizedSentinel (s i : Ty) : Bool :=
  Sentinel s i &&
  !disable_sized_sentinel (Ty.removeCv s) (Ty.removeCv i) &&
  Ty.minusProbe s i

/-- `detected_t<iterator_category_t, I>` as used by the iterator
hierarchy (`nonesuch` on failure). -/
def catDet (i : Ty) : Ty := (iterator_category_c i).getD .nonesuchTy

/-- `InputIterator<I>` (source lines 586-590). -/
def InputIterator (i : Ty) : Bool :=
  Iterator i && Readable i && DerivedFrom (catDet i) .tagIn

/-- `ForwardIterator<I>` (source lines 610-615). -/
def ForwardIterator (i : Ty) : Bool :=
  InputIterator i && ConvertibleTo (catDet i) .tagFwd &&
  Incrementable i && Sentinel i i

/-- `BidirectionalIterator<I>` (source lines 630-634). -/
def BidirectionalIterator (i : Ty) : Bool :=
  ForwardIterator i && DerivedFrom (catDet i) .tagBidir && Ty.decProbe i

/-- `RandomAccessIterator<I>` (source lines 653-659). -/
def RandomAccessIterator (i : Ty) : Bool :=
  BidirectionalIterator i && DerivedFrom (catDet i) .tagRA &&
  StrictTotallyOrdered i && SizedSentinel i i && Ty.raProbe i

/- ---------------------------------------------------------------------
   Detection idiom machinery (source lines 44-91)

   A type-level operation `Op<Args...>` is modelled as a function from the
   argument-type list to `Option Ty`: `none` is substitution failure
   ("ill-formed"), `some R` is success with result type `R`.
   --------------------------------------------------------------------- -/

/-- `is_detected<Op, Args...>` (source lines 54-67): detection succeeds
iff `Op<Args...>` is well-formed. -/
def is_detected (op : List Ty → Option Ty) (args : List Ty) : Bool :=
  (op args).isSome

/-- `detected_t<Op, Args...>` (source lines 54-70): the instantiated type
on success, the `nonesuch` placeholder on failure. -/
def detected_t (op : List Ty → Option Ty) (args : List Ty) : Ty :=
  (op args).getD .nonesuchTy

/-- `detected_or_t<Default, Op, Args...>` (source lines 72-79). -/
def detected_or_t (dflt : Ty) (op : List Ty → Option Ty) (args : List Ty) : Ty :=
  (op args).getD dflt

/-- `is_detected_exact<Expected, Op, Args...>` (source lines 81-85):
literally `std::is_same<Expected, detected_t<Op, Args...>>`. -/
def is_detected_exact (expected : Ty) (op : List Ty → Option Ty)
    (args : List Ty) : Bool :=
  expected == detected_t op args

/-- `is_detected_convertible<To, Op, Args...>` (source lines 87-91). -/
def is_detected_convertible (toTy : Ty) (op : List Ty → Option Ty)
    (args : List Ty) : Bool :=
  ConvertibleTo (detected_t op args) toTy

/- ---------------------------------------------------------------------
   Range access CPOs (source lines 786-979)
   --------------------------------------------------------------------- -/

/-- `begin_::member_begin_t<T>` = `decltype(declval<T&>().begin())`
(source lines 800-801): only the universe's `rng` class types declare a
member `begin`. -/
def member_begin_t : Ty → Option Ty
  | .rng _ mb _ _ _ => Ty.optOf mb
  | _ => none

/-- `begin_::nonmember_begin_t<T>` = `decltype(begin(declval<T&>()))`
under ADL with the poison overload `void begin(T&) = delete` in scope
(source lines 797-798, 807-808): only `rng` class types bring a free
`begin` into their associated namespace. -/
def nonmember_begin_t : Ty → Option Ty
  | .rng _ _ fb _ _ => Ty.optOf fb
  | _ => none

/-- `has_member_begin_v<T>` (source lines 803-805):
`Iterator<detected_t<member_begin_t, T>>`. -/
def has_member_begin_v (t : Ty) : Bool :=
  Iterator ((member_begin_t t).getD .nonesuchTy)

/-- `has_nonmember_begin_v<T>` (source lines 810-812). -/
def has_nonmember_begin_v (t : Ty) : Bool :=
  Iterator ((nonmember_begin_t t).getD .nonesuchTy)

/-- Which `begin_cpo::operator()` overload a call resolves to, with the
(decayed) result type it returns. -/
inductive BeginForm where
  | arrayForm (res : Ty)
  | memberForm (res : Ty)
  | freeForm (res : Ty)
  deriving DecidableEq, Repr

/-- Result type of a `BeginForm`. -/
def BeginForm.resTy : BeginForm → Ty
  | .arrayForm r => r
  | .memberForm r => r
  | .freeForm r => r

/-- Overload resolution of `begin_cpo` for an lvalue argument of type `T`
(source lines 814-854).  The rvalue (`const T&&`) deprecated overload
cannot bind an lvalue; for arrays the `T(&)[N]` overload is the unique
most-specialized viable candidate (and returns `(t) + 0`, a pointer to
the element type); for other types the member and free overloads'
`REQUIRES` clauses are mutually exclusive by construction (the free
overload requires `!has_member_begin_v<T>`), so resolution is the
priority order member-over-free.  Both bodies return `decay_copy` of the
call result.  `none`: no overload is viable (the CPO is not callable). -/
def begin_resolve (t : Ty) : Option BeginForm :=
  match t with
  | .array e _ => some (.arrayForm (.ptr e))
  | t =>
    if has_member_begin_v t then
      some (.memberForm (Ty.decay ((member_begin_t t).getD .nonesuchTy)))
    else if has_nonmember_begin_v t then
      some (.freeForm (Ty.decay ((nonmember_begin_t t).getD .nonesuchTy)))
    else none

/-- `decltype(nanorange::begin(declval<T&>()))`, the result type of the
`begin` CPO on an lvalue (`end_::begin_t`, source line 875). -/
def begin_type (t : Ty) : Option Ty :=
  (begin_resolve t).map BeginForm.resTy

/-- `end_::member_end_t<T>` (source lines 877-878). -/
def member_end_t : Ty → Option Ty
  | .rng _ _ _ me _ => Ty.optOf me
  | _ => none

/-- `end_::nonmember_end_t<T>` (source lines 885-886). -/
def nonmember_end_t : Ty → Option Ty
  | .rng _ _ _ _ fe => Ty.optOf fe
  | _ => none

/-- `has_member_end_v<T>` (source lines 880-883): the member `end` result
must form a `Sentinel` with whatever `begin` produces for the same type. -/
def has_member_end_v (t : Ty) : Bool :=
  Sentinel ((member_end_t t).getD .nonesuchTy) ((begin_type t).getD .nonesuchTy)

/-- `has_nonmember_end_v<T>` (source lines 888-891). -/
def has_nonmember_end_v (t : Ty) : Bool :=
  Sentinel ((nonmember_end_t t).getD .nonesuchTy) ((begin_type t).getD .nonesuchTy)

/-- Overload resolution of `end_cpo` for an lvalue argument (source lines
893-931), mirroring `begin_resolve`; the array overload returns
`(t) + N`, a pointer to the element type. -/
def end_resolve (t : Ty) : Option BeginForm :=
  match t with
  | .array e _ => some (.arrayForm (.ptr e))
  | t =>
    if has_member_end_v t then
      some (.memberForm (Ty.decay ((member_end_t t).getD .nonesuchTy)))
    else if has_nonmember_end_v t then
      some (.freeForm (Ty.decay ((nonmember_end_t t).getD .nonesuchTy)))
    else none

/-- Result type of the `end` CPO on an lvalue. -/
def end_type (t : Ty) : Option Ty :=
  (end_resolve t).map BeginForm.resTy

/-- `iterator_t<Rng>` = `decltype(nanorange::begin(declval<Rng&>()))`
(source lines 981-982); `Rng&` collapses references, so this is the
`begin` result on an lvalue of the unreferenced type.  `none` models an
ill-formed alias. -/
def iterator_t (t : Ty) : Option Ty := begin_type (Ty.removeRef t)

/-- `sentinel_t<Rng>` (source lines 984-985). -/
def sentinel_t (t : Ty) : Option Ty := end_type (Ty.removeRef t)

/-- `Range<T>` (source lines 993-998): the detected `iterator_t<T>`
satisfies `Iterator`, and the detected `iterator_t<T>` and `sentinel_t<T>`
are exactly the same type. -/
def Range (t : Ty) : Bool :=
  Iterator ((iterator_t t).getD .nonesuchTy) &&
  Same ((iterator_t t).getD .nonesuchTy) ((sentinel_t t).getD .nonesuchTy)

/-- `BoundedRange<T>` (source lines 1001-1002). -/
def BoundedRange (t : Ty) : Bool := Range t

/-- `InputRange<T>` (source lines 1004-1007). -/
def InputRange (t : Ty) : Bool :=
  Range t && InputIterator ((iterator_t t).getD .nonesuchTy)

/-- `ForwardRange<T>` (source lines 1014-1017). -/
def ForwardRange (t : Ty) : Bool :=
  Range t && ForwardIterator ((iterator_t t).getD .nonesuchTy)

/-- `BidirectionalRange<T>` (source lines 1019-1022). -/
def BidirectionalRange (t : Ty) : Bool :=
  Range t && BidirectionalIterator ((iterator_t t).getD .nonesuchTy)

/-- `RandomAccessRange<T>` (source lines 1024-1027). -/
def RandomAccessRange (t : Ty) : Bool :=
  Range t && RandomAccessIterator ((iterator_t t).getD .nonesuchTy)

/- ---------------------------------------------------------------------
   dangling / safe_iterator_t (source lines 1249-1267)
   --------------------------------------------------------------------- -/

/-- The runtime `dangling<T>` wrapper (source lines 1249-1262): it stores
the wrapped value. -/
structure dangling (α : Type) where
  value_ : α

/-- `dangling<T>::get_unsafe()` returns the stored value (source line
1258). -/
def dangling.get_unsafe {α : Type} (d : dangling α) : α := d.value_

/-- `safe_iterator_t<Range>` (source lines 1264-1267):
`conditional_t<is_lvalue_reference<Range>, iterator_t<Range>,
dangling<iterator_t<Range>>>`.  The alias is ill-formed (`none`) when
`iterator_t<Range>` is. -/
def safe_iterator_t (t : Ty) : Option Ty :=
  (iterator_t t).map (fun i => if Ty.isLvalueRef t then i else .danglingTy i)

/- ---------------------------------------------------------------------
   Indirect-callable and algorithm-requirement concepts
   (source lines 664-768); the source passes `F&` to the callable
   concepts - invocability of the universe's function objects does not
   depend on the reference qualification, so `f` is passed through.
   --------------------------------------------------------------------- -/

/-- `IndirectStrictWeakOrder<F, I1, I2>` (source lines 694-701). -/
def IndirectStrictWeakOrder (f i1 i2 : Ty) : Bool :=
  Readable i1 && Readable i2 && CopyConstructible f &&
  StrictWeakOrder f (.lref ((value_type_c i1).getD .nonesuchTy))
                    (.lref ((value_type_c i2).getD .nonesuchTy)) &&
  StrictWeakOrder f (.lref ((value_type_c i1).getD .nonesuchTy))
                    ((reference_type i2).getD .nonesuchTy) &&
  StrictWeakOrder f ((reference_type i1).getD .nonesuchTy)
                    (.lref ((value_type_c i2).getD .nonesuchTy)) &&
  StrictWeakOrder f ((reference_type i1).getD .nonesuchTy)
                    ((reference_type i2).getD .nonesuchTy)

/-- `IndirectlyMovable<In, Out>` (source lines 715-718). -/
def IndirectlyMovable (inp out : Ty) : Bool :=
  Readable inp && Writable out ((rvalue_reference_type inp).getD .nonesuchTy)

/-- `IndirectlyMovableStorable<In, Out>` (source lines 720-726). -/
def IndirectlyMovableStorable (inp out : Ty) : Bool :=
  IndirectlyMovable inp out &&
  Writable out ((value_type_c inp).getD .nonesuchTy) &&
  Movable ((value_type_c inp).getD .nonesuchTy) &&
  Constructible1 ((value_type_c inp).getD .nonesuchTy)
                 ((rvalue_reference_type inp).getD .nonesuchTy) &&
  Assignable (.lref ((value_type_c inp).getD .nonesuchTy))
             ((rvalue_reference_type inp).getD .nonesuchTy)

/-- `IndirectlySwappable<I1, I2>` (source lines 742-744). -/
def IndirectlySwappable (i1 i2 : Ty) : Bool := Readable i1 && Readable i2

/-- `Permutable<I>` (source lines 750-754). -/
def Permutable (i : Ty) : Bool :=
  ForwardIterator i && IndirectlyMovableStorable i i && IndirectlySwappable i i

/-- `Sortable<I, R>` (source lines 765-768). -/
def Sortable (i r : Ty) : Bool :=
  Permutable i && IndirectStrictWeakOrder r i i

/- ---------------------------------------------------------------------
   next_permutation constraints (source lines 2992-3006)
   --------------------------------------------------------------------- -/

/-- Invocability of the iterator-pair overload of `next_permutation`
(source lines 2992-2998): `BidirectionalIterator<BidirIt> &&
Sortable<BidirIt, Comp>`. -/
def next_permutation_iter_invocable (i comp : Ty) : Bool :=
  BidirectionalIterator i && Sortable i comp

/-- Invocability of the range overload of `next_permutation` (source
lines 3000-3006): `REQUIRES(BidirectionalRange<BidirRng> &&
Sortable<iterator_t<iterator_t<BidirRng>>, Comp>)` - note the doubled
`iterator_t`.  If either `iterator_t<BidirRng>` or
`iterator_t<iterator_t<BidirRng>>` is ill-formed, the `enable_if`
condition suffers substitution failure and the overload is removed. -/
def next_permutation_range_invocable (r comp : Ty) : Bool :=
  match iterator_t r with
  | none => false
  | some i =>
    match iterator_t i with
    | none => false
    | some ii => BidirectionalRange r && Sortable ii comp

/- ---------------------------------------------------------------------
   Runtime models of the thin algorithm layer
   --------------------------------------------------------------------- -/

/-- Runtime value of `begin_cpo` on an array whose storage starts at
address `base`: the body `(t) + 0` decays the array to a pointer to
element 0 and adds 0 (source lines 816-821). -/
def array_begin_addr (base : Nat) : Nat := base + 0

/-- Runtime value of `end_cpo` on a `T[n]` at address `base`: the body
`(t) + N` (source lines 895-900). -/
def array_end_addr (base n : Nat) : Nat := base + n

/-- A C++ iterator into one of several ranges: the id of the range it
points into, and its offset. -/
structure CppIter where
  rid : Nat
  off : Nat
  deriving DecidableEq, Repr

/-- Storage environment: range `r` holds the list `m.getD r []`. -/
abbrev Mem := List (List Int)

/-- The sequence denoted by an iterator pair, when it is a valid range:
both iterators must point into the same range, in order and in bounds.
`none` models C++ undefined behaviour for a mismatched pair. -/
def sliceOf (m : Mem) (f l : CppIter) : Option (List Int) :=
  if f.rid = l.rid ∧ f.off ≤ l.off ∧ l.off ≤ (m.getD f.rid []).length then
    some (((m.getD f.rid []).drop f.off).take (l.off - f.off))
  else none

/-- `std::is_permutation(first1, last1, first2, last2, pred)` semantics
on two valid sequences: equal lengths and, for every element, equal
counts of `pred`-equivalent elements in both sequences. -/
def permCheckBy (pred : Int → Int → Bool) (s1 s2 : List Int) : Bool :=
  s1.length == s2.length &&
  s1.all (fun x => s1.countP (pred x) == s2.countP (pred x))

/-- The delegated `std::is_permutation` call on iterator arguments:
`none` (undefined behaviour) unless both iterator pairs denote valid
ranges. -/
def std_is_permutation (m : Mem) (f1 l1 f2 l2 : CppIter)
    (pred : Int → Int → Bool) : Option Bool :=
  match sliceOf m f1 l1, sliceOf m f2 l2 with
  | some s1, some s2 => some (permCheckBy pred s1 s2)
  | _, _ => none

/-- The four-iterator overload of `is_permutation` (source lines
1597-1604): a direct constrained forwarding call to
`std::is_permutation`. -/
def is_permutation_iter (m : Mem) (f1 l1 f2 l2 : CppIter)
    (pred : Int → Int → Bool) : Option Bool :=
  std_is_permutation m f1 l1 f2 l2 pred

/-- `nanorange::begin` on range `rid`: pointer to element 0. -/
def begin_iter (rid : Nat) : CppIter := ⟨rid, 0⟩

/-- `nanorange::end` on range `rid`: pointer past the last element. -/
def end_iter (m : Mem) (rid : Nat) : CppIter := ⟨rid, (m.getD rid []).length⟩

/-- The range overload of `is_permutation` exactly as written (source
lines 1606-1615): it forwards
`(begin(range1), end(range2), begin(range2), end(range2))` - the end of
range 2 is used as the end of range 1. -/
def is_permutation_rng (m : Mem) (r1 r2 : Nat)
    (pred : Int → Int → Bool) : Option Bool :=
  std_is_permutation m (begin_iter r1) (end_iter m r2)
    (begin_iter r2) (end_iter m r2) pred

/-- Insertion into a sorted list (helper for the canonical
`std::nth_element` model). -/
def insertB (le : Int → Int → Bool) (x : Int) : List Int → List Int
  | [] => [x]
  | y :: ys => if le x y then x :: y :: ys else y :: insertB le x ys

/-- Insertion sort (helper for the canonical `std::nth_element` model). -/
def sortB (le : Int → Int → Bool) : List Int → List Int
  | [] => []
  | x :: xs => insertB le x (sortB le xs)

/-- `std::nth_element(first, nth, last, comp)` on a list with iterators
as offsets.  Its precondition is `first <= nth <= last <= length`; a
violating call is undefined behaviour (`none`).  On valid input any
rearrangement meeting the nth-element postcondition may be produced; the
model returns the canonical one that fully sorts `[first, last)`, which
satisfies the postcondition. -/
def std_nth_element (l : List Int) (first nthPos last : Nat)
    (comp : Int → Int → Bool) : Option (List Int) :=
  if first ≤ nthPos ∧ nthPos ≤ last ∧ last ≤ l.length then
    some (l.take first ++ sortB comp ((l.drop first).take (last - first)) ++
          l.drop last)
  else none

/-- The iterator overload of `nth_element` (source lines 2456-2462):
forwards `(first, nth, last, comp)` in that order. -/
def nth_element_iter (l : List Int) (first nthPos last : Nat)
    (comp : Int → Int → Bool) : Option (List Int) :=
  std_nth_element l first nthPos last comp

/-- The range overload of `nth_element` exactly as written (source lines
2464-2470): it calls `std::nth_element(begin(range), end(range), nth,
comp)`, so positionally `std::nth_element` receives `first = begin`,
`nth = end(range)` and `last = nth`. -/
def nth_element_rng (l : List Int) (nthPos : Nat)
    (comp : Int → Int → Bool) : Option (List Int) :=
  std_nth_element l 0 l.length nthPos comp

/- ---------------------------------------------------------------------
   Concrete example types used by witnesses and counterexamples
   --------------------------------------------------------------------- -/

/-- A class type with both a member `begin()` returning `int*` and an
ADL-findable free `begin()` returning `long*` - both results satisfy
`Iterator`. -/
def rngBoth : Ty := .rng 1 (.ptr .int) (.ptr .long) .absent .absent

/-- A class type whose member `begin()` returns `int*` but whose member
`end()` returns the distinct type `long*` (a "sentinel" of a different
type); it has no free `begin`/`end`. -/
def misRng : Ty := .rng 2 (.ptr .int) .absent (.ptr .long) .absent

/-- A class-type iterator whose nested `value_type` is `int` but whose
`operator*` returns `long&`: it satisfies `Iterator` (it is semiregular,
weakly incrementable with `difference_type` `long`, and has the full
legacy `iterator_traits` typedef set with forward category), yet its
declared value type does not match its dereference type. -/
def badIt : Ty := .iterCls 11 (.lref .long) .int .long true true true .tagFwd true true

/-- A range class whose member `begin()` and `end()` both return
`badIt`. -/
def badRng : Ty := .rng 10 badIt .absent badIt .absent

/- ---------------------------------------------------------------------
   Claim theorems
   --------------------------------------------------------------------- -/

/-- C1: for every lvalue argument whose type has both a member `begin()`
whose result satisfies `Iterator` and an ADL-findable free `begin()`
whose result satisfies `Iterator`, the `begin` CPO resolves to the member
form, returning a decayed copy of `t.begin()` - never to the free form. -/
theorem begin_cpo_prefers_member (t : Ty)
    (hm : has_member_begin_v t = true)
    (_hf : has_nonmember_begin_v t = true) :
    begin_resolve t =
      some (.memberForm (Ty.decay ((member_begin_t t).getD .nonesuchTy))) := by
  cases t with
  | rng id mb fb me fe => simp [begin_resolve, hm]
  | _ =>
    refine absurd hm ?_
    simp only [has_member_begin_v, member_begin_t, Option.getD]
    decide

/-- Witness for C1: `rngBoth` has both forms and resolves to the member
form returning `int*`. -/
theorem begin_cpo_prefers_member_witness :
    has_member_begin_v rngBoth = true ∧
    has_nonmember_begin_v rngBoth = true ∧
    begin_resolve rngBoth =
      some (.memberForm (Ty.decay ((member_begin_t rngBoth).getD .nonesuchTy))) :=
  ⟨by decide, by decide, begin_cpo_prefers_member rngBoth (by decide) (by decide)⟩

/-- C2: for every built-in array `T[N]` with `N > 0`, the `begin` CPO
resolves to the array overload returning a `T*` pointing at element 0
(address `base + 0`), the `end` CPO returns a `T*` pointing at element
`N` (address `base + N`), and `end - begin = N`. -/
theorem begin_end_array (t : Ty) (base n : Nat) (_h : 0 < n) :
    begin_resolve (.array t n) = some (.arrayForm (.ptr t)) ∧
    end_resolve (.array t n) = some (.arrayForm (.ptr t)) ∧
    array_begin_addr base = base ∧
    array_end_addr base n = base + n ∧
    array_end_addr base n - array_begin_addr base = n := by
  refine ⟨rfl, rfl, ?_, rfl, ?_⟩
  · show base + 0 = base
    rfl
  · show base + n - (base + 0) = n
    omega

/-- Witness for C2: `int[5]` at address 100. -/
theorem begin_end_array_witness :
    0 < 5 ∧
    (begin_resolve (.array .int 5) = some (.arrayForm (.ptr .int)) ∧
     end_resolve (.array .int 5) = some (.arrayForm (.ptr .int)) ∧
     array_begin_addr 100 = 100 ∧
     array_end_addr 100 5 = 100 + 5 ∧
     array_end_addr 100 5 - array_begin_addr 100 = 5) :=
  ⟨by decide, begin_end_array .int 100 5 (by decide)⟩

/-- C4: `Range<T>` holds iff the detected `iterator_t<T>` satisfies
`Iterator` and the detected `iterator_t<T>` and `sentinel_t<T>` are
exactly the same type; in particular `misRng`, whose `end()` returns a
different (sentinel) type than its `begin()`, does not satisfy `Range`
even though its `begin` result is an `Iterator`. -/
theorem Range_requires_same_type :
    (∀ t : Ty, Range t =
      (Iterator ((iterator_t t).getD .nonesuchTy) &&
       Same ((iterator_t t).getD .nonesuchTy) ((sentinel_t t).getD .nonesuchTy))) ∧
    iterator_t misRng = some (.ptr .int) ∧
    Iterator ((iterator_t misRng).getD .nonesuchTy) = true ∧
    Range misRng = false :=
  ⟨fun _ => rfl, by decide, by decide, by decide⟩

/-- C5: every type satisfying `RandomAccessIterator` also satisfies
`BidirectionalIterator`, `ForwardIterator`, `InputIterator`, `Iterator`
and `WeaklyIncrementable` (each level of the hierarchy implies all lower
levels). -/
theorem iterator_hierarchy_monotone (i : Ty)
    (h : RandomAccessIterator i = true) :
    BidirectionalIterator i = true ∧ ForwardIterator i = true ∧
    InputIterator i = true ∧ Iterator i = true ∧
    WeaklyIncrementable i = true := by
  simp only [RandomAccessIterator, BidirectionalIterator, ForwardIterator,
    InputIterator, Iterator, Bool.and_eq_true] at h
  refine ⟨?_, ?_, ?_, ?_, ?_⟩ <;>
    (try simp only [BidirectionalIterator, ForwardIterator, InputIterator,
      Iterator, Bool.and_eq_true]) <;> tauto

/-- Witness for C5: `int*` is a `RandomAccessIterator`, hence satisfies
the whole chain. -/
theorem iterator_hierarchy_monotone_witness :
    RandomAccessIterator (.ptr .int) = true ∧
    (BidirectionalIterator (.ptr .int) = true ∧
     ForwardIterator (.ptr .int) = true ∧
     InputIterator (.ptr .int) = true ∧
     Iterator (.ptr .int) = true ∧
     WeaklyIncrementable (.ptr .int) = true) :=
  ⟨by decide, iterator_hierarchy_monotone (.ptr .int) (by decide)⟩

/-- C3 (code bug): on ranges `[1, 2]` (id 0) and `[2, 1]` (id 1) with the
equality predicate, the range overload of `is_permutation` as written -
forwarding `(begin(range1), end(range2), begin(range2), end(range2))` -
hands the delegated check an invalid iterator pair mixing the two ranges
(undefined behaviour, modelled as `none`), whereas pairing each range
with its own bounds, as the claim and the four-iterator overload do,
yields `true`.  The two disagree, refuting the claimed equality. -/
theorem is_permutation_range_overload_bug :
    is_permutation_rng [[1, 2], [2, 1]] 0 1 (fun a b => a == b) = none ∧
    is_permutation_iter [[1, 2], [2, 1]] (begin_iter 0)
      (end_iter [[1, 2], [2, 1]] 0) (begin_iter 1)
      (end_iter [[1, 2], [2, 1]] 1) (fun a b => a == b) = some true ∧
    is_permutation_rng [[1, 2], [2, 1]] 0 1 (fun a b => a == b) ≠
      is_permutation_iter [[1, 2], [2, 1]] (begin_iter 0)
        (end_iter [[1, 2], [2, 1]] 0) (begin_iter 1)
        (end_iter [[1, 2], [2, 1]] 1) (fun a b => a == b) := by
  refine ⟨by decide, by decide, ?_⟩
  decide

/-- C6 counterexample: with an always-failing operation, detection fails
yet `is_detected_exact` with `Expected = nonesuch` is `true` - the code
compares `Expected` against the `nonesuch` placeholder that `detected_t`
yields on failure, so failure is not `false` "regardless of Expected". -/
theorem is_detected_exact_nonesuch_cex :
    is_detected (fun _ => none) [] = false ∧
    is_detected_exact .nonesuchTy (fun _ => none) [] = true := by
  exact ⟨rfl, rfl⟩

/-- C6 (amended): `is_detected_exact<Expected, Op, Args...>` is true iff
either detection succeeds and the detected type is exactly `Expected`,
or detection fails and `Expected` is the `nonesuch` placeholder type. -/
theorem is_detected_exact_characterization (e : Ty)
    (op : List Ty → Option Ty) (args : List Ty) :
    is_detected_exact e op args = true ↔
      ((is_detected op args = true ∧ detected_t op args = e) ∨
       (is_detected op args = false ∧ e = .nonesuchTy)) := by
  cases h : op args with
  | none =>
    simp [is_detected_exact, is_detected, detected_t, h, beq_iff_eq]
  | some v =>
    simp only [is_detected_exact, is_detected, detected_t, h]
    refine ⟨fun hbe => Or.inl ⟨rfl, ?_⟩, fun hor => ?_⟩
    · exact (eq_of_beq hbe).symm
    · rcases hor with ⟨-, hv⟩ | ⟨hbad, -⟩
      · exact beq_of_eq hv.symm
      · exact absurd hbad (by simp)

/-- C7: `safe_iterator_t<Range>` is the iterator type itself when the
range argument is a named lvalue reference, and the `dangling` wrapper
around the iterator type when the argument is an rvalue; the wrapped
value is still extractable via `get_unsafe`. -/
theorem safe_iterator_spec {α : Type} (r i : Ty) (x : α)
    (h : iterator_t r = some i) :
    (Ty.isLvalueRef r = true → safe_iterator_t r = some i) ∧
    (Ty.isLvalueRef r = false → safe_iterator_t r = some (.danglingTy i)) ∧
    dangling.get_unsafe (dangling.mk x) = x := by
  refine ⟨fun hl => ?_, fun hl => ?_, rfl⟩ <;>
    simp [safe_iterator_t, h, hl]

/-- Witness for C7: the lvalue-reference range `int(&)[3]` keeps its
iterator type `int*`; the rvalue range `int[3]` gets
`dangling<int*>`; `get_unsafe` recovers the stored value `7`. -/
theorem safe_iterator_spec_witness :
    iterator_t (.lref (.array .int 3)) = some (.ptr .int) ∧
    iterator_t (.array .int 3) = some (.ptr .int) ∧
    safe_iterator_t (.lref (.array .int 3)) = some (.ptr .int) ∧
    safe_iterator_t (.array .int 3) = some (.danglingTy (.ptr .int)) ∧
    dangling.get_unsafe (dangling.mk (7 : Nat)) = 7 :=
  ⟨by decide, by decide,
   (safe_iterator_spec (.lref (.array .int 3)) (.ptr .int) (7 : Nat)
      (by decide)).1 (by decide),
   (safe_iterator_spec (.array .int 3) (.ptr .int) (7 : Nat)
      (by decide)).2.1 (by decide),
   (safe_iterator_spec (.array .int 3) (.ptr .int) (7 : Nat)
      (by decide)).2.2⟩

/-- C8 (code bug): on the list `[1, 0]` with `nth` at offset 0 and the
`<=` comparator, the range overload of `nth_element` as written calls
`std::nth_element(begin, end, nth)` - so `std::nth_element` receives
`first = 0`, `nth = 2 (= end)`, `last = 0 (= nth)`, violating its
precondition `first <= nth <= last` (undefined behaviour, modelled as
`none`) - whereas the claimed delegation `nth_element(begin, nth, end)`
is well-defined and yields a rearranged list.  The two disagree,
refuting the claimed equivalence. -/
theorem nth_element_range_overload_bug :
    nth_element_rng [1, 0] 0 (fun a b => decide (a ≤ b)) = none ∧
    nth_element_iter [1, 0] 0 0 2 (fun a b => decide (a ≤ b)) =
      some [0, 1] ∧
    nth_element_rng [1, 0] 0 (fun a b => decide (a ≤ b)) ≠
      nth_element_iter [1, 0] 0 0 2 (fun a b => decide (a ≤ b)) := by
  refine ⟨by decide, by decide, ?_⟩
  decide

/-- C9 counterexample: `badRng` is a `Range` whose iterator `badIt`
declares `value_type` `int` while dereferencing (the decayed) `badIt`
produces a `long` - the library never ties the two together, so
`value_type_t<I>` need not equal the dereference result type. -/
theorem value_type_roundtrip_cex :
    Range badRng = true ∧
    iterator_t badRng = some badIt ∧
    Ty.decay badIt = badIt ∧
    value_type_c badIt = some .int ∧
    (reference_type (Ty.decay badIt)).map Ty.removeRef = some .long ∧
    value_type_c badIt ≠ (reference_type (Ty.decay badIt)).map Ty.removeRef := by
  refine ⟨by decide, by decide, by decide, by decide, by decide, ?_⟩
  decide

/-- C9 (amended): for every `Range` whose iterator type is a pointer
`T*`, `value_type_t<I>` equals `remove_cv` applied to the (non-reference)
type produced by dereferencing `I`'s decayed form; for class-type
iterators the nested `value_type` is taken as-is and need not match the
dereference type. -/
theorem value_type_roundtrip_pointer (r p : Ty)
    (h : Range r = true) (hp : iterator_t r = some (.ptr p)) :
    value_type_c (.ptr p) =
      (reference_type (Ty.decay (.ptr p))).map
        (fun d => Ty.removeCv (Ty.removeRef d)) := by
  rw [Range, Bool.and_eq_true, hp] at h
  have hit : Iterator (.ptr p) = true := by
    simpa using h.1
  have hnv : derefNotVoid (.ptr p) = true := by
    rw [Iterator, Bool.and_eq_true, Bool.and_eq_true] at hit
    exact hit.1.1
  have hobj : Ty.isObject p = true := by
    by_contra hob
    rw [derefNotVoid, reference_type] at hnv
    simp [Bool.not_eq_true] at hob
    rw [hob] at hnv
    simp at hnv
  show value_type_c (.ptr p) =
    (reference_type (Ty.decay (.ptr p))).map
      (fun d => Ty.removeCv (Ty.removeRef d))
  simp [value_type_c, value_decay, reference_type, Ty.decay, Ty.removeRef,
    Ty.removeCv, hobj]

/-- Witness for C9 (amended): the range `int[1]` has pointer iterator
`int*`; its value type `int` is the `remove_cv` of the dereference
type. -/
theorem value_type_roundtrip_pointer_witness :
    Range (.array .int 1) = true ∧
    iterator_t (.array .int 1) = some (.ptr .int) ∧
    value_type_c (.ptr .int) =
      (reference_type (Ty.decay (.ptr .int))).map
        (fun d => Ty.removeCv (Ty.removeRef d)) :=
  ⟨by decide, by decide,
   value_type_roundtrip_pointer (.array .int 1) .int (by decide) (by decide)⟩

/-- C10: the range overload of `next_permutation` is constrained on
`Sortable<iterator_t<iterator_t<BidirRng>>, Comp>`; whenever the range's
iterator type `i` is not itself a range (`iterator_t<i>` ill-formed),
the overload is not invocable - in particular for `int[5]`, whose
iterator `int*` has no `iterator_t`, even though the iterator-pair
overload is invocable for `int*` with `std::less<>`. -/
theorem next_permutation_range_constraint (r i comp : Ty)
    (h1 : iterator_t r = some i) (h2 : iterator_t i = none) :
    next_permutation_range_invocable r comp = false ∧
    iterator_t (.array .int 5) = some (.ptr .int) ∧
    iterator_t (.ptr .int) = none ∧
    next_permutation_range_invocable (.array .int 5) .lessFn = false ∧
    next_permutation_iter_invocable (.ptr .int) .lessFn = true := by
  refine ⟨?_, by decide, by decide, by decide, by decide⟩
  simp [next_permutation_range_invocable, h1, h2]

/-- Witness for C10: the bidirectional range `int[5]`. -/
theorem next_permutation_range_constraint_witness :
    iterator_t (.array .int 5) = some (.ptr .int) ∧
    iterator_t (.ptr .int) = none ∧
    BidirectionalRange (.array .int 5) = true ∧
    (next_permutation_range_invocable (.array .int 5) .lessFn = false ∧
     iterator_t (.array .int 5) = some (.ptr .int) ∧
     iterator_t (.ptr .int) = none ∧
     next_permutation_range_invocable (.array .int 5) .lessFn = false ∧
     next_permutation_iter_invocable (.ptr .int) .lessFn = true) :=
  ⟨by decide, by decide, by decide,
   next_permutation_range_constraint (.array .int 5) (.ptr .int) .lessFn
     (by decide) (by decide)⟩

end nanorange

